import Mathlib

/-!
Verification development for the child-bridge process supervisor of the
homebridge repository (`src/childBridgeService.ts`).

The TypeScript class `ChildBridgeService` is shallowly embedded as a state
record `ChildState` together with an immutable context `Ctx` (the
constructor-injected collaborators and options).  Each method of the class
becomes a Lean function `ChildState → ChildState × List Effect`, where
`Effect` records the externally observable actions (forking a worker,
IPC status notifications, scheduled restart timers, kill signals, sends on
the control channel, log lines).  The single-threaded event loop of the
supervisor is modelled by an `Event` type and a total `step` function:
an event that cannot physically occur in a given state (e.g. a process
close when no close handler is armed) is a no-op with no effects.

JavaScript-specific semantics that the source relies on are modelled
explicitly: `a || b` on strings treats the empty string as falsy
(`jsOrS` / `jsOrO`), `String.prototype.trim` is `jsTrim`, and the
`typeof message === 'object'` guard of the message handler admits the JS
value `null`, for which the subsequent `message.id` access throws a
`TypeError` (the handler therefore returns `Except`).
-/

/-- `ChildBridgeStatus` from the source: PENDING / OK / DOWN. -/
inductive ChildBridgeStatus where
  | pending
  | ok
  | down
deriving DecidableEq, Repr

/-- The optional `env` block of a bridge configuration
(`this.bridgeConfig.env?.DEBUG`, `this.bridgeConfig.env?.NODE_OPTIONS`). -/
structure EnvVars where
  debugVar : Option String
  nodeOptionsVar : Option String
deriving DecidableEq, Repr

/-- `BridgeConfiguration`: the per-bridge identity block (`_bridge` in the
persisted config file and `this.bridgeConfig` in the service). -/
structure BridgeConfiguration where
  name : Option String
  port : Option Nat
  username : String
  pin : Option String
  advertiser : Option String
  bind : Option String
  setupID : Option String
  manufacturer : Option String
  model : Option String
  firmwareRevision : Option String
  debugModeEnabled : Bool
  env : Option EnvVars
deriving DecidableEq, Repr

/-- One platform/accessory config block of the persisted configuration
(`PlatformConfig | AccessoryConfig`).  The source field `_bridge` is named
`bridgeCfg` here (Lean identifiers should not start with an underscore). -/
structure ConfigBlock where
  platform : Option String
  accessory : Option String
  name : Option String
  bridgeCfg : Option BridgeConfiguration
deriving DecidableEq, Repr

/-- The `bridge` block of the top-level homebridge config. -/
structure BridgeCore where
  pin : String
  advertiser : Option String
  bind : Option String
  manufacturer : Option String
  model : Option String
  firmwareRevision : Option String
deriving DecidableEq, Repr

/-- `HomebridgeConfig`: the top-level persisted configuration document.
`platforms` / `accessories` are `Option` because the parsed JSON may lack
them (the source guards with `homebridgeConfig.platforms?.`). -/
structure HomebridgeConfig where
  bridge : BridgeCore
  ports : Option (Nat × Nat)
  platforms : Option (List ConfigBlock)
  accessories : Option (List ConfigBlock)
deriving DecidableEq, Repr

/-- The subset of `HomebridgeOptions` read by the supervisor
(`setProcessFlags`). -/
structure HomebridgeOptions where
  forceColourLogging : Bool
  insecureAccess : Bool
  noLogTimestamps : Bool
  keepOrphanedCachedAccessories : Bool
  customStoragePath : Option String
  customPluginPath : Option String
deriving DecidableEq, Repr

/-- `PluginType` from the api module. -/
inductive PluginType where
  | platform
  | accessory
deriving DecidableEq, Repr

/-- Handle to the forked worker (`this.child : ChildProcess`).
`connected` mirrors `child.connected`; `closeAttached` records whether the
`once('close')` handler is still armed (it is consumed when the close event
fires, and removed by `removeAllListeners('close')`). -/
structure ChildHandle where
  pid : Nat
  connected : Bool
  closeAttached : Bool
deriving DecidableEq, Repr

/-- The computed `this.processEnv` (`ForkOptions`): DEBUG and NODE_OPTIONS
after concatenation and trim, plus `silent: true`. -/
structure ProcessEnv where
  debugVar : String
  nodeOptionsVar : String
  silent : Bool
deriving DecidableEq, Repr

/-- Immutable context of one supervisor: constructor arguments and ambient
parent-process environment.  (`this.plugin.getPluginIdentifier()` is
`pluginIdentifier`, `this.plugin.getPluginPath()` is `pluginPath`,
`User.cachedAccessoryPath()` is `cachedAccessoryPath`.) -/
structure Ctx where
  typ : PluginType
  identifier : String
  pluginIdentifier : String
  pluginPath : String
  homebridgeConfig : HomebridgeConfig
  homebridgeOptions : HomebridgeOptions
  parentEnv : EnvVars
  cachedAccessoryPath : String
deriving DecidableEq, Repr

/-- Mutable state of one `ChildBridgeService` instance, plus the multiset of
scheduled-but-unfired restart timers (`setTimeout` callbacks of
`handleProcessClose`; the source never cancels them) and a counter used to
produce fresh pids for `fork`. -/
structure ChildState where
  child : Option ChildHandle
  args : List String
  processEnv : Option ProcessEnv
  shuttingDown : Bool
  lastBridgeStatus : ChildBridgeStatus
  pairedStatus : Option Bool
  manuallyStopped : Bool
  setupUri : Option String
  pluginConfig : List ConfigBlock
  displayName : Option String
  restartCount : Nat
  bridgeConfig : BridgeConfiguration
  pendingTimers : List Nat
  nextPid : Nat
deriving DecidableEq, Repr

/-- `this.maxRestarts = 4`. -/
def maxRestarts : Nat := 4

/-- JS `a || b` for an optional string against a string default: the empty
string is falsy. -/
def jsOrS : Option String → String → String
  | none, d => d
  | some x, d => if x = "" then d else x

/-- JS `a || b` for two optional strings. -/
def jsOrO : Option String → Option String → Option String
  | none, d => d
  | some x, d => if x = "" then d else some x

/-- JS `a || ''` for an optional string. -/
def jsOrEmpty : Option String → String
  | none => ""
  | some x => x

/-- JS whitespace test (the characters relevant to `String.prototype.trim`
for the strings built here). -/
def jsWhitespace (c : Char) : Bool :=
  c = ' ' || c = '\t' || c = '\n' || c = '\r'

/-- `String.prototype.trim`, modelled over the character list so that it is
kernel-computable. -/
def jsTrim (s : String) : String :=
  String.mk (((s.toList.dropWhile jsWhitespace).reverse.dropWhile jsWhitespace).reverse)

/-- `ChildMetadata`: the snapshot returned by `getMetadata()`. -/
structure ChildMetadata where
  status : ChildBridgeStatus
  paired : Option Bool
  setupUri : Option String
  username : String
  pin : String
  name : String
  plugin : String
  identifier : String
  pid : Option Nat
  manuallyStopped : Bool
deriving DecidableEq, Repr

/-- `getMetadata()` translated from the source. -/
def getMetadata (ctx : Ctx) (s : ChildState) : ChildMetadata :=
  { status := s.lastBridgeStatus
    paired := s.pairedStatus
    setupUri := s.setupUri
    username := s.bridgeConfig.username
    pin := jsOrS s.bridgeConfig.pin ctx.homebridgeConfig.bridge.pin
    name := jsOrS s.bridgeConfig.name (jsOrS s.displayName ctx.pluginIdentifier)
    plugin := ctx.pluginIdentifier
    identifier := ctx.identifier
    pid := s.child.map (fun c => c.pid)
    manuallyStopped := s.manuallyStopped }

/-- Payload of the LOAD control message (`ChildProcessLoadEventData`). -/
structure LoadData where
  typ : PluginType
  identifier : String
  pluginPath : String
  pluginConfig : List ConfigBlock
  bridgeConfig : BridgeConfiguration
  cachedAccessoriesDir : String
  cachedAccessoriesItemName : String
  bridgeOptions : HomebridgeOptions
  homebridgeConfig : HomebridgeConfig
deriving DecidableEq, Repr

/-- Messages the supervisor sends to the worker over the control channel. -/
inductive OutMsg where
  | load (payload : LoadData)
  | startMsg
  | portAllocated (username : String) (port : Option Nat)
deriving DecidableEq, Repr

/-- Externally observable actions of the supervisor. -/
inductive Effect where
  | spawnProcess (pid : Nat) (args : List String)
  | ipcStatus (meta : ChildMetadata)
  | sendToChild (msg : OutMsg)
  | scheduleRestart (delaySeconds : Nat)
  | killChild (signal : String)
  | portRequest (username : String)
  | logEvent
  | uncaught
deriving DecidableEq, Repr

/-- The `bridgeStatus` setter: assigns `lastBridgeStatus` and calls
`sendStatusUpdate()`, which forwards `getMetadata()` over IPC. -/
def setBridgeStatus (ctx : Ctx) (v : ChildBridgeStatus) (s : ChildState) :
    ChildState × List Effect :=
  let s1 := { s with lastBridgeStatus := v }
  (s1, [Effect.ipcStatus (getMetadata ctx s1)])

/-- `sendMessage`: a send is dropped unless the child exists and is
connected. -/
def sendMessage (s : ChildState) (m : OutMsg) : List Effect :=
  match s.child with
  | some c => if c.connected then [Effect.sendToChild m] else []
  | none => []

/-- `startChildProcess()` (its synchronous part): set status PENDING (through
the setter, hence one IPC notification), then `fork` a fresh worker whose
close handler is armed (`once('close')`). -/
def startChildProcess (ctx : Ctx) (s : ChildState) : ChildState × List Effect :=
  let r1 := setBridgeStatus ctx ChildBridgeStatus.pending s
  let pid := r1.1.nextPid
  let s2 := { r1.1 with
                child := some { pid := pid, connected := true, closeAttached := true }
                nextPid := pid + 1 }
  (s2, r1.2 ++ [Effect.spawnProcess pid s2.args])

/-- `code === 1 && signal === null` from `handleProcessClose`. -/
def isLikelyPluginCrash (code : Option Int) (signal : Option String) : Bool :=
  match code, signal with
  | some 1, none => true
  | _, _ => false

/-- `handleProcessClose(code, signal)` translated branch by branch from the
source.  The `setTimeout` of the crash branch is modelled by appending the
delay to `pendingTimers` and emitting `scheduleRestart`; the timer callback
itself runs later as an `Event.timerFire`. -/
def handleProcessClose (ctx : Ctx) (code : Option Int) (signal : Option String)
    (s : ChildState) : ChildState × List Effect :=
  if isLikelyPluginCrash code signal then
    if s.restartCount < maxRestarts then
      let r1 := setBridgeStatus ctx ChildBridgeStatus.pending s
      let s2 := { r1.1 with restartCount := r1.1.restartCount + 1 }
      let delay := s2.restartCount * 10
      ({ s2 with pendingTimers := s2.pendingTimers ++ [delay] },
        Effect.logEvent :: r1.2 ++ [Effect.logEvent, Effect.scheduleRestart delay])
    else
      let r1 := setBridgeStatus ctx ChildBridgeStatus.down s
      ({ r1.1 with manuallyStopped := true },
        Effect.logEvent :: r1.2 ++ [Effect.logEvent])
  else
    if s.shuttingDown = false then
      let r1 := setBridgeStatus ctx ChildBridgeStatus.down s
      let s2 := { r1.1 with restartCount := 0 }
      let r3 := startChildProcess ctx s2
      (r3.1, Effect.logEvent :: r1.2 ++ r3.2)
    else
      (s, [Effect.logEvent])

/-- `setProcessFlags()`: the command-line flags pushed onto `this.args`
(note the source appends to the existing array). -/
def computeFlags (ctx : Ctx) (bc : BridgeConfiguration) : List String :=
  (if bc.debugModeEnabled then ["-D"] else [])
    ++ (if ctx.homebridgeOptions.forceColourLogging then ["-C"] else [])
    ++ (if ctx.homebridgeOptions.insecureAccess then ["-I"] else [])
    ++ (if ctx.homebridgeOptions.noLogTimestamps then ["-T"] else [])
    ++ (if ctx.homebridgeOptions.keepOrphanedCachedAccessories then ["-K"] else [])
    ++ (match ctx.homebridgeOptions.customStoragePath with
        | some p => if p = "" then [] else ["-U", p]
        | none => [])
    ++ (match ctx.homebridgeOptions.customPluginPath with
        | some p => if p = "" then [] else ["-P", p]
        | none => [])

/-- `setProcessFlags()` as a state transformer. -/
def setProcessFlags (ctx : Ctx) (s : ChildState) : ChildState :=
  { s with args := s.args ++ computeFlags ctx s.bridgeConfig }

/-- `setProcessEnv()`: DEBUG and NODE_OPTIONS are the trimmed concatenation
of the parent value and the bridge-specific override. -/
def setProcessEnv (ctx : Ctx) (s : ChildState) : ChildState :=
  let pe : ProcessEnv :=
    { debugVar := jsTrim (jsOrEmpty ctx.parentEnv.debugVar ++ " "
        ++ jsOrEmpty (s.bridgeConfig.env.bind (fun e => e.debugVar)))
      nodeOptionsVar := jsTrim (jsOrEmpty ctx.parentEnv.nodeOptionsVar ++ " "
        ++ jsOrEmpty (s.bridgeConfig.env.bind (fun e => e.nodeOptionsVar)))
      silent := true }
  { s with processEnv := some pe }

/-- `start()`: flags, env, spawn, then the display name (the single config
block name when exactly one block is attached, else the plugin identifier). -/
def start (ctx : Ctx) (s : ChildState) : ChildState × List Effect :=
  let s1 := setProcessFlags ctx s
  let s2 := setProcessEnv ctx s1
  let r3 := startChildProcess ctx s2
  let dn := match r3.1.pluginConfig with
    | [c] => jsOrS c.name ctx.pluginIdentifier
    | _ => ctx.pluginIdentifier
  ({ r3.1 with displayName := some dn }, r3.2)

/-- `addConfig(config)`. -/
def addConfig (c : ConfigBlock) (s : ChildState) : ChildState :=
  { s with pluginConfig := s.pluginConfig ++ [c] }

/-- The merged bridge configuration built inside `loadPlugin()`. -/
def mergedBridgeConfig (ctx : Ctx) (s : ChildState) : BridgeConfiguration :=
  { name := some (jsOrS s.bridgeConfig.name (jsOrS s.displayName ctx.pluginIdentifier))
    port := s.bridgeConfig.port
    username := s.bridgeConfig.username
    pin := some (jsOrS s.bridgeConfig.pin ctx.homebridgeConfig.bridge.pin)
    advertiser := ctx.homebridgeConfig.bridge.advertiser
    bind := ctx.homebridgeConfig.bridge.bind
    setupID := s.bridgeConfig.setupID
    manufacturer := jsOrO s.bridgeConfig.manufacturer ctx.homebridgeConfig.bridge.manufacturer
    model := jsOrO s.bridgeConfig.model ctx.homebridgeConfig.bridge.model
    firmwareRevision := jsOrO s.bridgeConfig.firmwareRevision
      ctx.homebridgeConfig.bridge.firmwareRevision
    debugModeEnabled := false
    env := none }

/-- `loadPlugin()`: builds the LOAD payload and sends it (state unchanged). -/
def loadPlugin (ctx : Ctx) (s : ChildState) : List Effect :=
  sendMessage s (OutMsg.load
    { typ := ctx.typ
      identifier := ctx.identifier
      pluginPath := ctx.pluginPath
      pluginConfig := s.pluginConfig
      bridgeConfig := mergedBridgeConfig ctx s
      cachedAccessoriesDir := ctx.cachedAccessoryPath
      cachedAccessoriesItemName :=
        "cachedAccessories." ++ (s.bridgeConfig.username.replace ":" "").toUpper
      bridgeOptions := ctx.homebridgeOptions
      homebridgeConfig :=
        { bridge := ctx.homebridgeConfig.bridge
          ports := ctx.homebridgeConfig.ports
          platforms := some []
          accessories := some [] } })

/-- `startBridge()`. -/
def startBridge (s : ChildState) : List Effect :=
  sendMessage s OutMsg.startMsg

/-- `teardown()`: only acts on a live, connected child; sets status DOWN
(through the setter) and sends SIGTERM. -/
def teardown (ctx : Ctx) (s : ChildState) : ChildState × List Effect :=
  match s.child with
  | some c =>
    if c.connected then
      let r1 := setBridgeStatus ctx ChildBridgeStatus.down s
      (r1.1, r1.2 ++ [Effect.killChild "SIGTERM"])
    else (s, [])
  | none => (s, [])

/-- Does a config block of the platforms array match this supervisor
(`x.platform === identifier && x._bridge?.username === username`)? -/
def platformBlockMatches (ctx : Ctx) (s : ChildState) (x : ConfigBlock) : Bool :=
  x.platform == some ctx.identifier
    && (match x.bridgeCfg with
        | some b => b.username == s.bridgeConfig.username
        | none => false)

/-- Accessory variant of the matching predicate. -/
def accessoryBlockMatches (ctx : Ctx) (s : ChildState) (x : ConfigBlock) : Bool :=
  x.accessory == some ctx.identifier
    && (match x.bridgeCfg with
        | some b => b.username == s.bridgeConfig.username
        | none => false)

/-- `refreshConfig()`.  The outcome of `fs.readJson(User.configPath())` is a
parameter: `Except.error` is a read/parse failure (rejected promise).  When
the read succeeds but the relevant top-level array is absent, the source
evaluates `config.length` on `undefined`, throwing a `TypeError` that the
surrounding `catch` swallows; both failure shapes land in the logged,
state-preserving branch.  The `try`/`catch` makes the whole operation total:
it returns a plain state, never an error. -/
def refreshConfig (ctx : Ctx) (o : Except Unit HomebridgeConfig) (s : ChildState) :
    ChildState × List Effect :=
  match o with
  | Except.error _ => (s, [Effect.logEvent])
  | Except.ok homebridgeConfig =>
    match ctx.typ with
    | PluginType.platform =>
      match homebridgeConfig.platforms with
      | none => (s, [Effect.logEvent])
      | some ps =>
        let config := ps.filter (platformBlockMatches ctx s)
        if config.length ≠ 0 then
          ({ s with
              pluginConfig := config
              bridgeConfig := (config.head?.bind (fun b => b.bridgeCfg)).getD s.bridgeConfig },
            [])
        else (s, [Effect.logEvent])
    | PluginType.accessory =>
      match homebridgeConfig.accessories with
      | none => (s, [Effect.logEvent])
      | some as2 =>
        let config := as2.filter (accessoryBlockMatches ctx s)
        if config.length ≠ 0 then
          ({ s with
              pluginConfig := config
              bridgeConfig := (config.head?.bind (fun b => b.bridgeCfg)).getD s.bridgeConfig },
            [])
        else (s, [Effect.logEvent])

/-- Is there a block in the freshly read config matching this supervisor?
(Used to state the retention property of `refreshConfig`.) -/
def refreshHasMatch (ctx : Ctx) (cfg : HomebridgeConfig) (s : ChildState) : Bool :=
  match ctx.typ with
  | PluginType.platform =>
    match cfg.platforms with
    | none => false
    | some ps => !(ps.filter (platformBlockMatches ctx s)).isEmpty
  | PluginType.accessory =>
    match cfg.accessories with
    | none => false
    | some as2 => !(as2.filter (accessoryBlockMatches ctx s)).isEmpty

/-- `startChildBridge()`: guarded by `manuallyStopped`, status DOWN, and no
connected child; refreshes config, respawns, clears both lifecycle flags
(in that order: the flags are cleared after the spawn). -/
def startChildBridge (ctx : Ctx) (o : Except Unit HomebridgeConfig)
    (s : ChildState) : ChildState × List Effect :=
  if s.manuallyStopped
      && s.lastBridgeStatus == ChildBridgeStatus.down
      && (match s.child with
          | some c => !c.connected
          | none => true) then
    let r1 := refreshConfig ctx o s
    let r2 := startChildProcess ctx r1.1
    ({ r2.1 with shuttingDown := false, manuallyStopped := false }, r1.2 ++ r2.2)
  else (s, [Effect.logEvent])

/-- `restartChildBridge()`.  The source fires `refreshConfig()` without
awaiting it; the read outcome is passed in and applied in place. -/
def restartChildBridge (ctx : Ctx) (o : Except Unit HomebridgeConfig)
    (s : ChildState) : ChildState × List Effect :=
  if s.manuallyStopped then
    startChildBridge ctx o { s with restartCount := 0 }
  else
    let r1 := refreshConfig ctx o s
    let r2 := teardown ctx r1.1
    (r2.1, Effect.logEvent :: r1.2 ++ r2.2)

/-- `stopChildBridge()` translated from the source: when not already
shutting down it marks `shuttingDown` and `manuallyStopped`, resets
`restartCount`, sets status DOWN, removes the close listener and tears the
child down; otherwise it only logs. -/
def stopChildBridge (ctx : Ctx) (s : ChildState) : ChildState × List Effect :=
  if s.shuttingDown = false then
    let s1 := { s with shuttingDown := true, manuallyStopped := true, restartCount := 0 }
    let r2 := setBridgeStatus ctx ChildBridgeStatus.down s1
    let s3 := { r2.1 with
                  child := r2.1.child.map (fun c => { c with closeAttached := false }) }
    let r4 := teardown ctx s3
    (r4.1, Effect.logEvent :: r2.2 ++ r4.2)
  else
    (s, [Effect.logEvent])

/-- The fields of `message.data` read by the message handlers. -/
structure MsgData where
  version : Option String
  username : Option String
  paired : Option Bool
  setupUri : Option String
deriving DecidableEq, Repr

/-- An inbound value on the IPC channel, as a JS value:
`nonObject` is anything with `typeof` other than `object` (strings, numbers,
booleans, undefined); `nullVal` is the JS `null`, whose `typeof` IS
`object`; `obj` is a real object whose `id` field is either absent (`none`)
or some string, with an optional `data` object. -/
inductive RawValue where
  | nonObject
  | nullVal
  | obj (id : Option String) (data : Option MsgData)
deriving DecidableEq, Repr

/-- The tags the control channel defines (`ChildProcessMessageEventType`). -/
def recognizedIds : List String :=
  ["ready", "load", "loaded", "start", "online", "portRequest", "portAllocated", "status"]

/-- The `message` listener installed by `startChildProcess`.  An
`Except.error` result models an exception escaping the handler (which in
Node would be an uncaught exception): this happens exactly for the JS value
`null`, which passes the `typeof message !== 'object'` guard and then
throws on the `message.id` access. -/
def handleChildMessage (ctx : Ctx) (m : RawValue) (s : ChildState) :
    Except Unit (ChildState × List Effect) :=
  match m with
  | RawValue.nonObject => Except.ok (s, [])
  | RawValue.nullVal => Except.error ()
  | RawValue.obj none _ => Except.ok (s, [])
  | RawValue.obj (some id) data =>
    if id = "" then Except.ok (s, [])
    else if id = "ready" then
      Except.ok (s, Effect.logEvent :: loadPlugin ctx s)
    else if id = "loaded" then
      Except.ok (s, Effect.logEvent :: startBridge s)
    else if id = "online" then
      Except.ok (setBridgeStatus ctx ChildBridgeStatus.ok s)
    else if id = "portRequest" then
      Except.ok (s, [Effect.portRequest (jsOrEmpty (data.bind (fun d => d.username)))])
    else if id = "status" then
      let s1 := { s with
                    pairedStatus := data.bind (fun d => d.paired)
                    setupUri := data.bind (fun d => d.setupUri) }
      Except.ok (s1, [Effect.ipcStatus (getMetadata ctx s1)])
    else Except.ok (s, [])

/-- Events the supervisor's single-threaded event loop reacts to.
`processClose` is a close of the current worker (deliverable only while the
`once('close')` handler is armed; delivery consumes the handler and clears
`connected`).  `timerFire i` is the `setTimeout` callback of the `i`-th
pending restart timer.  `childMsg` is an inbound IPC value.  `childError`
is the `error` event of the child process.  `stopCB`, `startCB`,
`restartCB`, `refreshCfg`, `addCfg` are the public methods (the `Except`
argument is the outcome of the config read they trigger).  `apiShutdown` is
the global shutdown signal subscribed to in the constructor.  `portGrant`
is the resolution of `externalPortService.requestPort` inside
`handlePortRequest`. -/
inductive Event where
  | processClose (code : Option Int) (signal : Option String)
  | timerFire (i : Nat)
  | childMsg (m : RawValue)
  | childError
  | stopCB
  | startCB (o : Except Unit HomebridgeConfig)
  | restartCB (o : Except Unit HomebridgeConfig)
  | refreshCfg (o : Except Unit HomebridgeConfig)
  | addCfg (c : ConfigBlock)
  | apiShutdown
  | portGrant (username : String) (port : Option Nat)

/-- One reaction of the event loop.  Events that cannot occur in the given
state (close without an armed handler, a message without a connected child,
a fire of a non-existent timer) are no-ops with no effects. -/
def step (ctx : Ctx) (e : Event) (s : ChildState) : ChildState × List Effect :=
  match e with
  | Event.processClose code signal =>
    match s.child with
    | some c =>
      if c.closeAttached then
        let s1 := { s with child := some { c with connected := false, closeAttached := false } }
        handleProcessClose ctx code signal s1
      else (s, [])
    | none => (s, [])
  | Event.timerFire i =>
    if i < s.pendingTimers.length then
      let s1 := { s with pendingTimers := s.pendingTimers.eraseIdx i }
      if s1.shuttingDown then (s1, []) else startChildProcess ctx s1
    else (s, [])
  | Event.childMsg m =>
    match s.child with
    | some c =>
      if c.connected then
        match handleChildMessage ctx m s with
        | Except.ok r => r
        | Except.error _ => (s, [Effect.uncaught])
      else (s, [])
    | none => (s, [])
  | Event.childError =>
    match s.child with
    | some _ =>
      let r := setBridgeStatus ctx ChildBridgeStatus.down s
      (r.1, r.2 ++ [Effect.logEvent])
    | none => (s, [])
  | Event.stopCB => stopChildBridge ctx s
  | Event.startCB o => startChildBridge ctx o s
  | Event.restartCB o => restartChildBridge ctx o s
  | Event.refreshCfg o => refreshConfig ctx o s
  | Event.addCfg c => (addConfig c s, [])
  | Event.apiShutdown => teardown ctx { s with shuttingDown := true }
  | Event.portGrant u p => (s, sendMessage s (OutMsg.portAllocated u p))

/-- Run a sequence of events, accumulating all emitted effects. -/
def run (ctx : Ctx) : List Event → ChildState → ChildState × List Effect
  | [], s => (s, [])
  | e :: es, s =>
    let r := step ctx e s
    let r2 := run ctx es r.1
    (r2.1, r.2 ++ r2.2)

/-- An effect that (re)spawns or schedules a respawn of the worker. -/
def isRespawnEffect : Effect → Bool
  | Effect.spawnProcess _ _ => true
  | Effect.scheduleRestart _ => true
  | _ => false

/-- Does an effect list contain a process spawn? -/
def hasSpawn (l : List Effect) : Bool :=
  l.any (fun e => match e with
    | Effect.spawnProcess _ _ => true
    | _ => false)

/-- Does an effect list contain a scheduled restart? -/
def hasSchedule (l : List Effect) : Bool :=
  l.any (fun e => match e with
    | Effect.scheduleRestart _ => true
    | _ => false)

/-- No spawn and no scheduled restart in the effect list. -/
def noRespawn (l : List Effect) : Bool :=
  l.all (fun e => !isRespawnEffect e)

/-- State of a freshly constructed `ChildBridgeService` (the field
initializers of the class). -/
def initState (bc : BridgeConfiguration) : ChildState :=
  { child := none
    args := []
    processEnv := none
    shuttingDown := false
    lastBridgeStatus := ChildBridgeStatus.pending
    pairedStatus := none
    manuallyStopped := false
    setupUri := none
    pluginConfig := []
    displayName := none
    restartCount := 0
    bridgeConfig := bc
    pendingTimers := []
    nextPid := 0 }

/-- A concrete bridge configuration used by witnesses and counterexamples. -/
def bcSample : BridgeConfiguration :=
  { name := some "BridgeA"
    port := some 51826
    username := "0E:11:22:33:44:55"
    pin := some "031-45-154"
    advertiser := none
    bind := none
    setupID := none
    manufacturer := none
    model := none
    firmwareRevision := none
    debugModeEnabled := true
    env := none }

/-- A concrete homebridge options record. -/
def optsSample : HomebridgeOptions :=
  { forceColourLogging := false
    insecureAccess := false
    noLogTimestamps := false
    keepOrphanedCachedAccessories := false
    customStoragePath := none
    customPluginPath := none }

/-- A concrete supervisor context. -/
def ctxSample : Ctx :=
  { typ := PluginType.platform
    identifier := "PlatformA"
    pluginIdentifier := "plugin-a"
    pluginPath := "/plugins/a"
    homebridgeConfig :=
      { bridge :=
          { pin := "031-45-154"
            advertiser := none
            bind := none
            manufacturer := none
            model := none
            firmwareRevision := none }
        ports := none
        platforms := none
        accessories := none }
    homebridgeOptions := optsSample
    parentEnv := { debugVar := none, nodeOptionsVar := none }
    cachedAccessoryPath := "/accessories" }

/-- The state right after the orchestrator called `start()`. -/
def startedSample : ChildState := (start ctxSample (initState bcSample)).1

/-- C2: a crash close (exit code 1, no signal) with `restartCount < 4` and
not shutting down sets status Pending, increments `restartCount`, schedules
a respawn after `restartCount * 10` seconds (so the Nth consecutive crash
waits `10*N` seconds) without spawning immediately; and a scheduled respawn
(timer fire) spawns exactly when `shuttingDown` is false at fire time. -/
theorem c2_crash_backoff (ctx : Ctx) (s : ChildState) (c : ChildHandle)
    (h1 : s.child = some c) (h2 : c.closeAttached = true)
    (h3 : s.restartCount < maxRestarts) (h4 : s.shuttingDown = false) :
    (step ctx (Event.processClose (some 1) none) s).1.lastBridgeStatus
        = ChildBridgeStatus.pending
    ∧ (step ctx (Event.processClose (some 1) none) s).1.restartCount
        = s.restartCount + 1
    ∧ Effect.scheduleRestart ((s.restartCount + 1) * 10)
        ∈ (step ctx (Event.processClose (some 1) none) s).2
    ∧ (step ctx (Event.processClose (some 1) none) s).1.pendingTimers
        = s.pendingTimers ++ [(s.restartCount + 1) * 10]
    ∧ hasSpawn (step ctx (Event.processClose (some 1) none) s).2 = false
    ∧ (∀ s2 i, i < s2.pendingTimers.length → s2.shuttingDown = true →
        hasSpawn (step ctx (Event.timerFire i) s2).2 = false)
    ∧ (∀ s2 i, i < s2.pendingTimers.length → s2.shuttingDown = false →
        hasSpawn (step ctx (Event.timerFire i) s2).2 = true) := by
  refine ⟨?_, ?_, ?_, ?_, ?_, ?_, ?_⟩
  all_goals
    simp only [step, h1, h2, if_true, handleProcessClose, isLikelyPluginCrash,
      setBridgeStatus, startChildProcess, hasSpawn, maxRestarts] at *
  · simp [h3]
  · simp [h3]
  · simp [h3]
  · simp [h3]
  · simp [h3, List.any_eq_true]
  · intro s2 i hlen hsd
    simp [hlen, hsd]
  · intro s2 i hlen hsd
    simp [hlen, hsd, List.any_eq_true]

/-- Witness for C2: on the freshly started sample supervisor, a crash close
increments `restartCount` to 1 and schedules a 10-second respawn. -/
theorem c2_crash_backoff_witness :
    (step ctxSample (Event.processClose (some 1) none) startedSample).1.restartCount = 1
    ∧ Effect.scheduleRestart 10
        ∈ (step ctxSample (Event.processClose (some 1) none) startedSample).2 := by
  have h := c2_crash_backoff ctxSample startedSample
    { pid := 0, connected := true, closeAttached := true }
    (by decide) rfl (by decide) (by decide)
  exact ⟨h.2.1, h.2.2.1⟩

/-- C3: any close that is not a crash (code/signal other than exit code 1
with no signal) while not shutting down resets `restartCount` to 0, leaves
the status Pending and respawns at once (a spawn effect with no scheduled
restart). -/
theorem c3_noncrash_immediate_respawn (ctx : Ctx) (s : ChildState) (c : ChildHandle)
    (code : Option Int) (signal : Option String)
    (h1 : s.child = some c) (h2 : c.closeAttached = true)
    (h3 : isLikelyPluginCrash code signal = false) (h4 : s.shuttingDown = false) :
    (step ctx (Event.processClose code signal) s).1.restartCount = 0
    ∧ (step ctx (Event.processClose code signal) s).1.lastBridgeStatus
        = ChildBridgeStatus.pending
    ∧ hasSpawn (step ctx (Event.processClose code signal) s).2 = true
    ∧ hasSchedule (step ctx (Event.processClose code signal) s).2 = false := by
  refine ⟨?_, ?_, ?_, ?_⟩
  all_goals
    simp [step, h1, h2, handleProcessClose, h3, h4, setBridgeStatus,
      startChildProcess, hasSpawn, hasSchedule]

/-- Witness for C3: a clean exit (code 0) on the started sample supervisor
respawns immediately with counters reset. -/
theorem c3_noncrash_immediate_respawn_witness :
    (step ctxSample (Event.processClose (some 0) none) startedSample).1.restartCount = 0
    ∧ hasSpawn (step ctxSample (Event.processClose (some 0) none) startedSample).2 = true := by
  have h := c3_noncrash_immediate_respawn ctxSample startedSample
    { pid := 0, connected := true, closeAttached := true }
    (some 0) none (by decide) rfl (by decide) (by decide)
  exact ⟨h.1, h.2.2.1⟩

/-- C4: `stopChildBridge()` on a supervisor that is not shutting down and
has a connected worker marks `shuttingDown` and `manuallyStopped`, sets
status Down, detaches the close handler (so a later process close is not
deliverable and triggers nothing), and sends SIGTERM; when already shutting
down it only logs and changes no state. -/
theorem c4_stop_child_bridge (ctx : Ctx) (s : ChildState) (c : ChildHandle)
    (h1 : s.shuttingDown = false) (h2 : s.child = some c) (h3 : c.connected = true) :
    (step ctx Event.stopCB s).1.shuttingDown = true
    ∧ (step ctx Event.stopCB s).1.manuallyStopped = true
    ∧ (step ctx Event.stopCB s).1.lastBridgeStatus = ChildBridgeStatus.down
    ∧ (∀ c2, (step ctx Event.stopCB s).1.child = some c2 → c2.closeAttached = false)
    ∧ Effect.killChild "SIGTERM" ∈ (step ctx Event.stopCB s).2
    ∧ (∀ code signal,
        step ctx (Event.processClose code signal) (step ctx Event.stopCB s).1
          = ((step ctx Event.stopCB s).1, []))
    ∧ (∀ s2, s2.shuttingDown = true →
        step ctx Event.stopCB s2 = (s2, [Effect.logEvent])) := by
  refine ⟨?_, ?_, ?_, ?_, ?_, ?_, ?_⟩
  · simp [step, stopChildBridge, h1, h2, h3, setBridgeStatus, teardown]
  · simp [step, stopChildBridge, h1, h2, h3, setBridgeStatus, teardown]
  · simp [step, stopChildBridge, h1, h2, h3, setBridgeStatus, teardown]
  · intro c2 hc2
    simp [step, stopChildBridge, h1, h2, h3, setBridgeStatus, teardown] at hc2
    simp [← hc2]
  · simp [step, stopChildBridge, h1, h2, h3, setBridgeStatus, teardown]
  · intro code signal
    simp [step, stopChildBridge, h1, h2, h3, setBridgeStatus, teardown]
  · intro s2 hs2
    simp [step, stopChildBridge, hs2]

/-- Witness for C4: stopping the started sample supervisor flags it
stopped, reports Down, and sends SIGTERM. -/
theorem c4_stop_child_bridge_witness :
    (step ctxSample Event.stopCB startedSample).1.manuallyStopped = true
    ∧ (step ctxSample Event.stopCB startedSample).1.lastBridgeStatus
        = ChildBridgeStatus.down
    ∧ Effect.killChild "SIGTERM" ∈ (step ctxSample Event.stopCB startedSample).2 := by
  have h := c4_stop_child_bridge ctxSample startedSample
    { pid := 0, connected := true, closeAttached := true }
    (by decide) (by decide) rfl
  exact ⟨h.2.1, h.2.2.1, h.2.2.2.2.1⟩

/-- C7: `refreshConfig` is total (the `try`/`catch` returns normally for
every read outcome) and can only ever change `pluginConfig` and
`bridgeConfig`; on a read/parse failure, and on a successful read with no
block matching this supervisor's plugin and bridge identity, the previous
`pluginConfig` and `bridgeConfig` are retained unchanged. -/
theorem c7_refresh_config_total_and_retentive (ctx : Ctx)
    (o : Except Unit HomebridgeConfig) (s : ChildState) :
    ((refreshConfig ctx o s).1
        = { s with
              pluginConfig := (refreshConfig ctx o s).1.pluginConfig
              bridgeConfig := (refreshConfig ctx o s).1.bridgeConfig })
    ∧ (o = Except.error () → (refreshConfig ctx o s).1 = s)
    ∧ (∀ cfg, o = Except.ok cfg → refreshHasMatch ctx cfg s = false →
        (refreshConfig ctx o s).1 = s) := by
  refine ⟨?_, ?_, ?_⟩
  · cases o with
    | error e => simp [refreshConfig]
    | ok cfg =>
      cases htyp : ctx.typ with
      | platform =>
        cases hps : cfg.platforms with
        | none => simp [refreshConfig, htyp, hps]
        | some ps =>
          by_cases hlen : (ps.filter (platformBlockMatches ctx s)).length = 0
          · simp [refreshConfig, htyp, hps, hlen]
          · simp [refreshConfig, htyp, hps, hlen]
      | accessory =>
        cases hps : cfg.accessories with
        | none => simp [refreshConfig, htyp, hps]
        | some as2 =>
          by_cases hlen : (as2.filter (accessoryBlockMatches ctx s)).length = 0
          · simp [refreshConfig, htyp, hps, hlen]
          · simp [refreshConfig, htyp, hps, hlen]
  · intro ho
    subst ho
    simp [refreshConfig]
  · intro cfg ho hmatch
    subst ho
    cases htyp : ctx.typ with
    | platform =>
      cases hps : cfg.platforms with
      | none => simp [refreshConfig, htyp, hps]
      | some ps =>
        simp [refreshHasMatch, htyp, hps, List.isEmpty_iff_length_eq_zero] at hmatch
        have hcond : ¬ ∃ x ∈ ps, platformBlockMatches ctx s x = true := by
          rintro ⟨x, hx, hpx⟩
          rw [hmatch x hx] at hpx
          exact Bool.false_ne_true hpx
        simp [refreshConfig, htyp, hps, hcond]
    | accessory =>
      cases hps : cfg.accessories with
      | none => simp [refreshConfig, htyp, hps]
      | some as2 =>
        simp [refreshHasMatch, htyp, hps, List.isEmpty_iff_length_eq_zero] at hmatch
        have hcond : ¬ ∃ x ∈ as2, accessoryBlockMatches ctx s x = true := by
          rintro ⟨x, hx, hpx⟩
          rw [hmatch x hx] at hpx
          exact Bool.false_ne_true hpx
        simp [refreshConfig, htyp, hps, hcond]

/-- Witness for C7: a failed read on the started sample supervisor leaves
the state untouched. -/
theorem c7_refresh_config_witness :
    (refreshConfig ctxSample (Except.error ()) startedSample).1 = startedSample := by
  exact (c7_refresh_config_total_and_retentive ctxSample (Except.error ()) startedSample).2.1 rfl

/-- The malformed/unrecognized inbound values of claim C8: not an object,
an object with no (truthy) `id`, or an `id` outside the recognized
message-kind set.  JS `null` "lacks an `id` field" (any access to it
throws), so it falls under the claim. -/
def malformedMsg : RawValue → Bool
  | RawValue.nonObject => true
  | RawValue.nullVal => true
  | RawValue.obj none _ => true
  | RawValue.obj (some id) _ => !(recognizedIds.contains id)

/-- Counterexample for C8: the JS value `null` is covered by the claim (it
is not an object carrying an `id`), yet the handler does not discard it
silently — `typeof null` is `object`, so the guard passes and the
`message.id` access throws a `TypeError` (modelled as `Except.error`),
contradicting "discards it without raising an error". -/
theorem c8_null_message_raises :
    malformedMsg RawValue.nullVal = true
    ∧ handleChildMessage ctxSample RawValue.nullVal startedSample = Except.error () := by
  exact ⟨rfl, rfl⟩

/-- C8 (amended): every inbound value that is not an object, lacks a truthy
`id`, or carries an unrecognized `id` — except the JS value `null` — is
discarded without an error and without any state change. -/
theorem c8_malformed_discarded (ctx : Ctx) (m : RawValue) (s : ChildState)
    (h1 : malformedMsg m = true) (h2 : m ≠ RawValue.nullVal) :
    handleChildMessage ctx m s = Except.ok (s, []) := by
  cases m with
  | nonObject => rfl
  | nullVal => exact absurd rfl h2
  | obj id data =>
    cases id with
    | none => rfl
    | some i =>
      simp [malformedMsg, recognizedIds] at h1
      obtain ⟨hr, hl, hld, hst, ho, hpr, hpa, hsu⟩ := h1
      by_cases he : i = ""
      · simp [handleChildMessage, he]
      · simp [handleChildMessage, he, hr, hld, ho, hpr, hsu]

/-- Witness for C8 (amended): an object message with an unknown tag is
silently discarded on the sample supervisor. -/
theorem c8_malformed_discarded_witness :
    handleChildMessage ctxSample (RawValue.obj (some "bogus") none) startedSample
      = Except.ok (startedSample, []) := by
  exact c8_malformed_discarded ctxSample (RawValue.obj (some "bogus") none) startedSample
    (by decide) (by decide)

/-- Frame lemma: `refreshConfig` can only change `pluginConfig` and
`bridgeConfig`, and emits at most a log line. -/
theorem refreshConfig_shape (ctx : Ctx) (o : Except Unit HomebridgeConfig)
    (s : ChildState) :
    ∃ pc bc2 eff,
      refreshConfig ctx o s = ({ s with pluginConfig := pc, bridgeConfig := bc2 }, eff)
      ∧ (eff = [] ∨ eff = [Effect.logEvent]) := by
  unfold refreshConfig
  cases o with
  | error e =>
    exact ⟨s.pluginConfig, s.bridgeConfig, [Effect.logEvent], rfl, Or.inr rfl⟩
  | ok cfg =>
    cases htyp : ctx.typ with
    | platform =>
      cases hps : cfg.platforms with
      | none =>
        exact ⟨s.pluginConfig, s.bridgeConfig, [Effect.logEvent], by simp [htyp, hps], Or.inr rfl⟩
      | some ps =>
        by_cases hlen : (ps.filter (platformBlockMatches ctx s)).length = 0
        · exact ⟨s.pluginConfig, s.bridgeConfig, [Effect.logEvent],
            by simp [htyp, hps, hlen], Or.inr rfl⟩
        · exact ⟨ps.filter (platformBlockMatches ctx s),
            (((ps.filter (platformBlockMatches ctx s)).head?.bind
              (fun b => b.bridgeCfg)).getD s.bridgeConfig),
            [], by simp [htyp, hps, hlen], Or.inl rfl⟩
    | accessory =>
      cases hps : cfg.accessories with
      | none =>
        exact ⟨s.pluginConfig, s.bridgeConfig, [Effect.logEvent], by simp [htyp, hps], Or.inr rfl⟩
      | some as2 =>
        by_cases hlen : (as2.filter (accessoryBlockMatches ctx s)).length = 0
        · exact ⟨s.pluginConfig, s.bridgeConfig, [Effect.logEvent],
            by simp [htyp, hps, hlen], Or.inr rfl⟩
        · exact ⟨as2.filter (accessoryBlockMatches ctx s),
            (((as2.filter (accessoryBlockMatches ctx s)).head?.bind
              (fun b => b.bridgeCfg)).getD s.bridgeConfig),
            [], by simp [htyp, hps, hlen], Or.inl rfl⟩

/-- `refreshConfig` does not touch the restart counter. -/
theorem refreshConfig_restartCount (ctx : Ctx) (o : Except Unit HomebridgeConfig)
    (s : ChildState) :
    (refreshConfig ctx o s).1.restartCount = s.restartCount := by
  obtain ⟨pc, bc2, eff, heq, _⟩ := refreshConfig_shape ctx o s
  rw [heq]

/-- `startChildProcess` does not touch the restart counter. -/
theorem startChildProcess_restartCount (ctx : Ctx) (s : ChildState) :
    (startChildProcess ctx s).1.restartCount = s.restartCount := by
  simp [startChildProcess, setBridgeStatus]

/-- `teardown` does not touch the restart counter. -/
theorem teardown_restartCount (ctx : Ctx) (s : ChildState) :
    (teardown ctx s).1.restartCount = s.restartCount := by
  unfold teardown
  rcases s.child with _ | c
  · rfl
  · by_cases hcon : c.connected = true
    · simp [hcon, setBridgeStatus]
    · simp [hcon]

/-- `startChildBridge` does not touch the restart counter. -/
theorem startChildBridge_restartCount (ctx : Ctx) (o : Except Unit HomebridgeConfig)
    (s : ChildState) :
    (startChildBridge ctx o s).1.restartCount = s.restartCount := by
  unfold startChildBridge
  split
  · rw [show ({ (startChildProcess ctx (refreshConfig ctx o s).1).1 with
        shuttingDown := false, manuallyStopped := false } : ChildState).restartCount
        = (startChildProcess ctx (refreshConfig ctx o s).1).1.restartCount from rfl]
    rw [startChildProcess_restartCount, refreshConfig_restartCount]
  · rfl

/-- Case split on `handleProcessClose`: the restart counter is incremented
(crash, budget left), kept (crash budget exhausted, or close during
shutdown), or reset to zero (non-crash close with respawn). -/
theorem handleProcessClose_restartCount (ctx : Ctx) (code : Option Int)
    (signal : Option String) (s : ChildState) :
    (handleProcessClose ctx code signal s).1.restartCount = s.restartCount + 1
    ∨ (handleProcessClose ctx code signal s).1.restartCount = s.restartCount
    ∨ ((handleProcessClose ctx code signal s).1.restartCount = 0
        ∧ isLikelyPluginCrash code signal = false) := by
  by_cases hcr : isLikelyPluginCrash code signal = true
  · by_cases hlt : s.restartCount < maxRestarts
    · left
      simp [handleProcessClose, hcr, hlt, setBridgeStatus]
    · right; left
      simp [handleProcessClose, hcr, hlt, setBridgeStatus]
  · rw [Bool.not_eq_true] at hcr
    by_cases hsd : s.shuttingDown = false
    · right; right
      refine ⟨?_, hcr⟩
      simp [handleProcessClose, hcr, hsd, setBridgeStatus, startChildProcess]
    · right; left
      simp [handleProcessClose, hcr, hsd]

/-- Counterexample for C10: `stopChildBridge()` — a manual stop, which is
neither a clean (non-crash) restart cycle nor a manual restart — also
resets a positive `restartCount` (here 2) to 0 (the
`this.restartCount = 0` line inside `stopChildBridge`), so a public
operation outside the two listed ones does reduce a positive counter. -/
theorem c10_stop_resets_restart_count :
    ({ initState bcSample with restartCount := 2 } : ChildState).restartCount = 2
    ∧ (step ctxSample Event.stopCB
        { initState bcSample with restartCount := 2 }).1.restartCount = 0 := by
  exact ⟨rfl, rfl⟩

/-- The operations that may lower the restart counter: a non-crash process
close (clean restart cycle), `restartChildBridge`, and `stopChildBridge`. -/
def isCounterResetEvent : Event → Bool
  | Event.stopCB => true
  | Event.restartCB _ => true
  | Event.processClose code signal => !isLikelyPluginCrash code signal
  | _ => false

/-- C10 (amended): `restartCount` is reset to 0 on a clean (non-crash)
restart cycle, on a manual restart, and also on a manual stop
(`stopChildBridge`); whenever any operation lowers it, the new value is 0
and the operation is one of those three. -/
theorem c10_restart_count_monotone (ctx : Ctx) (e : Event) (s : ChildState)
    (h : (step ctx e s).1.restartCount < s.restartCount) :
    (step ctx e s).1.restartCount = 0 ∧ isCounterResetEvent e = true := by
  cases e with
  | processClose code signal =>
    cases hc : s.child with
    | none => simp [step, hc] at h
    | some c =>
      by_cases hat : c.closeAttached = true
      · simp only [step, hc, hat, if_true] at h ⊢
        rcases handleProcessClose_restartCount ctx code signal
          { s with child := some { c with connected := false, closeAttached := false } }
          with h1 | h1 | h1
        · simp only [h1] at h
          omega
        · simp only [h1] at h
          omega
        · exact ⟨h1.1, by simp [isCounterResetEvent, h1.2]⟩
      · simp [step, hc, hat] at h
  | timerFire i =>
    by_cases hlen : i < s.pendingTimers.length
    · by_cases hsd : s.shuttingDown = true
      · simp [step, hlen, hsd] at h
      · simp only [step, hlen, if_true] at h
        rw [if_neg (by simp [hsd]), startChildProcess_restartCount] at h
        simp at h
    · simp [step, hlen] at h
  | childMsg m =>
    cases hc : s.child with
    | none => simp [step, hc] at h
    | some c =>
      by_cases hcon : c.connected = true
      · simp only [step, hc, hcon, if_true] at h
        cases m with
        | nonObject => simp [handleChildMessage] at h
        | nullVal => simp [handleChildMessage] at h
        | obj id data =>
          cases id with
          | none => simp [handleChildMessage] at h
          | some i =>
            by_cases he : i = ""
            · simp [handleChildMessage, he] at h
            · by_cases h1 : i = "ready"
              · simp [handleChildMessage, he, h1] at h
              · by_cases h2 : i = "loaded"
                · simp [handleChildMessage, he, h1, h2] at h
                · by_cases h3 : i = "online"
                  · simp [handleChildMessage, he, h1, h2, h3, setBridgeStatus] at h
                  · by_cases hp : i = "portRequest"
                    · simp [handleChildMessage, he, h1, h2, h3, hp] at h
                    · by_cases h5 : i = "status"
                      · simp [handleChildMessage, he, h1, h2, h3, hp, h5] at h
                      · simp [handleChildMessage, he, h1, h2, h3, hp, h5] at h
      · simp [step, hc, hcon] at h
  | childError =>
    cases hc : s.child with
    | none => simp [step, hc] at h
    | some c => simp [step, hc, setBridgeStatus] at h
  | stopCB =>
    by_cases hsd : s.shuttingDown = false
    · refine ⟨?_, rfl⟩
      simp only [step, stopChildBridge, hsd, if_true]
      rw [teardown_restartCount]
      simp [setBridgeStatus]
    · simp [step, stopChildBridge, hsd] at h
  | startCB o =>
    rw [show (step ctx (Event.startCB o) s).1 = (startChildBridge ctx o s).1 from rfl,
      startChildBridge_restartCount] at h
    omega
  | restartCB o =>
    refine ⟨?_, rfl⟩
    by_cases hms : s.manuallyStopped = true
    · rw [show (step ctx (Event.restartCB o) s).1 = (restartChildBridge ctx o s).1 from rfl]
      unfold restartChildBridge
      rw [if_pos hms, startChildBridge_restartCount]
    · exfalso
      revert h
      rw [show (step ctx (Event.restartCB o) s).1 = (restartChildBridge ctx o s).1 from rfl]
      unfold restartChildBridge
      rw [if_neg (by simp [hms])]
      rw [show ((let r1 := refreshConfig ctx o s
          let r2 := teardown ctx r1.1
          (r2.1, Effect.logEvent :: r1.2 ++ r2.2)).1 : ChildState)
          = (teardown ctx (refreshConfig ctx o s).1).1 from rfl]
      rw [teardown_restartCount, refreshConfig_restartCount]
      omega
  | refreshCfg o =>
    rw [show (step ctx (Event.refreshCfg o) s).1 = (refreshConfig ctx o s).1 from rfl,
      refreshConfig_restartCount] at h
    omega
  | addCfg c => simp [step, addConfig] at h
  | apiShutdown =>
    rw [show (step ctx Event.apiShutdown s).1
        = (teardown ctx { s with shuttingDown := true }).1 from rfl,
      teardown_restartCount] at h
    simp at h
  | portGrant u p => simp [step] at h

/-- Witness for C10 (amended): stopping with `restartCount = 2` lowers the
counter to 0, and `stopChildBridge` is one of the three resetting
operations. -/
theorem c10_restart_count_monotone_witness :
    (step ctxSample Event.stopCB { initState bcSample with restartCount := 2 }).1.restartCount = 0
    ∧ isCounterResetEvent Event.stopCB = true := by
  exact c10_restart_count_monotone ctxSample Event.stopCB
    { initState bcSample with restartCount := 2 } (by decide)

/-- Counterexample for C6: `start()` is not idempotent.  `setProcessFlags`
pushes onto the existing `this.args`, so with `debugModeEnabled` set the
first call leaves `args = [-D]` and a second call leaves
`args = [-D, -D]` — the observable launch arguments differ (and a second
worker is forked). -/
theorem c6_start_not_idempotent :
    (start ctxSample (initState bcSample)).1.args = ["-D"]
    ∧ (start ctxSample (start ctxSample (initState bcSample)).1).1.args = ["-D", "-D"]
    ∧ (start ctxSample (start ctxSample (initState bcSample)).1).1.args
        ≠ (start ctxSample (initState bcSample)).1.args := by
  refine ⟨rfl, rfl, ?_⟩
  decide

/-- C6 (amended): a second `start()` recomputes the display name, the
process environment and the status to the same values as the first call,
but appends a second copy of the launch flags to `args` and forks an
additional worker. -/
theorem c6_second_start (ctx : Ctx) (s : ChildState) :
    (start ctx (start ctx s).1).1.displayName = (start ctx s).1.displayName
    ∧ (start ctx (start ctx s).1).1.processEnv = (start ctx s).1.processEnv
    ∧ (start ctx (start ctx s).1).1.lastBridgeStatus = (start ctx s).1.lastBridgeStatus
    ∧ (start ctx (start ctx s).1).1.args
        = (start ctx s).1.args ++ computeFlags ctx (start ctx s).1.bridgeConfig
    ∧ hasSpawn (start ctx (start ctx s).1).2 = true := by
  refine ⟨?_, ?_, ?_, ?_, ?_⟩
  all_goals
    simp [start, setProcessFlags, setProcessEnv, startChildProcess, setBridgeStatus, hasSpawn]

/-- `startChildProcess` always notifies (its PENDING assignment goes through
the setter). -/
theorem startChildProcess_notifies (ctx : Ctx) (s : ChildState) :
    ∃ m, Effect.ipcStatus m ∈ (startChildProcess ctx s).2 := by
  refine ⟨getMetadata ctx { s with lastBridgeStatus := ChildBridgeStatus.pending }, ?_⟩
  simp [startChildProcess, setBridgeStatus]

/-- `teardown` either does nothing at all or notifies (its DOWN assignment
goes through the setter). -/
theorem teardown_cases (ctx : Ctx) (s : ChildState) :
    teardown ctx s = (s, []) ∨ ∃ m, Effect.ipcStatus m ∈ (teardown ctx s).2 := by
  unfold teardown
  cases hc : s.child with
  | none => exact Or.inl rfl
  | some c =>
    by_cases hcon : c.connected = true
    · right
      refine ⟨getMetadata ctx { s with lastBridgeStatus := ChildBridgeStatus.down }, ?_⟩
      simp [hcon, setBridgeStatus]
    · left
      simp [hcon]

/-- `handleProcessClose` either leaves the status untouched or notifies. -/
theorem handleProcessClose_status_or_notifies (ctx : Ctx) (code : Option Int)
    (signal : Option String) (s : ChildState) :
    (handleProcessClose ctx code signal s).1.lastBridgeStatus = s.lastBridgeStatus
    ∨ ∃ m, Effect.ipcStatus m ∈ (handleProcessClose ctx code signal s).2 := by
  by_cases hcr : isLikelyPluginCrash code signal = true
  · by_cases hlt : s.restartCount < maxRestarts
    · right
      refine ⟨getMetadata ctx { s with lastBridgeStatus := ChildBridgeStatus.pending }, ?_⟩
      simp [handleProcessClose, hcr, hlt, setBridgeStatus]
    · right
      refine ⟨getMetadata ctx { s with lastBridgeStatus := ChildBridgeStatus.down }, ?_⟩
      simp [handleProcessClose, hcr, hlt, setBridgeStatus]
  · rw [Bool.not_eq_true] at hcr
    by_cases hsd : s.shuttingDown = false
    · right
      refine ⟨getMetadata ctx { s with lastBridgeStatus := ChildBridgeStatus.down }, ?_⟩
      simp [handleProcessClose, hcr, hsd, setBridgeStatus, startChildProcess]
    · left
      simp [handleProcessClose, hcr, hsd]

/-- C9: the bridge status is mutated only through the `bridgeStatus` setter,
which emits exactly one StatusPublisher (IPC) notification carrying the
metadata snapshot current at the assignment; consequently no event-loop
step changes the status without at least one notification among its
effects. -/
theorem c9_status_mutation_notifies (ctx : Ctx) (e : Event) (s : ChildState) :
    ((step ctx e s).1.lastBridgeStatus ≠ s.lastBridgeStatus →
      ∃ m, Effect.ipcStatus m ∈ (step ctx e s).2)
    ∧ (∀ v, (setBridgeStatus ctx v s).2
        = [Effect.ipcStatus (getMetadata ctx { s with lastBridgeStatus := v })]) := by
  refine ⟨?_, fun v => rfl⟩
  intro h
  cases e with
  | processClose code signal =>
    cases hc : s.child with
    | none => simp [step, hc] at h
    | some c =>
      by_cases hat : c.closeAttached = true
      · simp only [step, hc, hat, if_true] at h ⊢
        rcases handleProcessClose_status_or_notifies ctx code signal
          { s with child := some { c with connected := false, closeAttached := false } }
          with h1 | h1
        · rw [h1] at h
          simp at h
        · exact h1
      · simp [step, hc, hat] at h
  | timerFire i =>
    by_cases hlen : i < s.pendingTimers.length
    · by_cases hsd : s.shuttingDown = true
      · simp [step, hlen, hsd] at h
      · simp only [step, hlen, if_true] at h ⊢
        rw [if_neg (by simp [hsd])] at h ⊢
        exact startChildProcess_notifies ctx _
    · simp [step, hlen] at h
  | childMsg m =>
    cases hc : s.child with
    | none => simp [step, hc] at h
    | some c =>
      by_cases hcon : c.connected = true
      · simp only [step, hc, hcon, if_true] at h ⊢
        cases m with
        | nonObject => simp [handleChildMessage] at h
        | nullVal => simp [handleChildMessage] at h
        | obj id data =>
          cases id with
          | none => simp [handleChildMessage] at h
          | some i =>
            by_cases he : i = ""
            · simp [handleChildMessage, he] at h
            · by_cases h1 : i = "ready"
              · simp [handleChildMessage, he, h1] at h
              · by_cases h2 : i = "loaded"
                · simp [handleChildMessage, he, h1, h2] at h
                · by_cases h3 : i = "online"
                  · refine ⟨getMetadata ctx { s with lastBridgeStatus := ChildBridgeStatus.ok }, ?_⟩
                    simp [handleChildMessage, he, h1, h2, h3, setBridgeStatus]
                  · by_cases hp : i = "portRequest"
                    · simp [handleChildMessage, he, h1, h2, h3, hp] at h
                    · by_cases h5 : i = "status"
                      · refine ⟨getMetadata ctx
                          { s with
                              pairedStatus := data.bind (fun d => d.paired)
                              setupUri := data.bind (fun d => d.setupUri) }, ?_⟩
                        simp [handleChildMessage, he, h1, h2, h3, hp, h5]
                      · simp [handleChildMessage, he, h1, h2, h3, hp, h5] at h
      · simp [step, hc, hcon] at h
  | childError =>
    cases hc : s.child with
    | none => simp [step, hc] at h
    | some c =>
      refine ⟨getMetadata ctx { s with lastBridgeStatus := ChildBridgeStatus.down }, ?_⟩
      simp [step, hc, setBridgeStatus]
  | stopCB =>
    by_cases hsd : s.shuttingDown = false
    · refine ⟨getMetadata ctx
        { s with
            shuttingDown := true, manuallyStopped := true, restartCount := 0
            lastBridgeStatus := ChildBridgeStatus.down }, ?_⟩
      simp [step, stopChildBridge, hsd, setBridgeStatus]
    · simp [step, stopChildBridge, hsd] at h
  | startCB o =>
    rw [show step ctx (Event.startCB o) s = startChildBridge ctx o s from rfl] at h ⊢
    unfold startChildBridge at h ⊢
    by_cases hg : (s.manuallyStopped
        && s.lastBridgeStatus == ChildBridgeStatus.down
        && (match s.child with
            | some c => !c.connected
            | none => true)) = true
    · rw [if_pos hg] at h ⊢
      obtain ⟨m, hm⟩ := startChildProcess_notifies ctx (refreshConfig ctx o s).1
      exact ⟨m, by simp [hm]⟩
    · rw [if_neg (by simp at hg ⊢; exact hg)] at h
      simp at h
  | restartCB o =>
    rw [show step ctx (Event.restartCB o) s = restartChildBridge ctx o s from rfl] at h ⊢
    unfold restartChildBridge at h ⊢
    by_cases hms : s.manuallyStopped = true
    · rw [if_pos hms] at h ⊢
      unfold startChildBridge at h ⊢
      by_cases hg : (({ s with restartCount := 0 } : ChildState).manuallyStopped
          && ({ s with restartCount := 0 } : ChildState).lastBridgeStatus == ChildBridgeStatus.down
          && (match ({ s with restartCount := 0 } : ChildState).child with
              | some c => !c.connected
              | none => true)) = true
      · rw [if_pos hg] at h ⊢
        obtain ⟨m, hm⟩ := startChildProcess_notifies ctx
          (refreshConfig ctx o { s with restartCount := 0 }).1
        exact ⟨m, by simp [hm]⟩
      · rw [if_neg (by simp at hg ⊢; exact hg)] at h
        simp at h
    · rw [if_neg (by simp [hms])] at h ⊢
      obtain ⟨pc, bc2, eff, heq, _⟩ := refreshConfig_shape ctx o s
      rw [show ((let r1 := refreshConfig ctx o s
          let r2 := teardown ctx r1.1
          (r2.1, Effect.logEvent :: r1.2 ++ r2.2)) : ChildState × List Effect)
          = ((teardown ctx (refreshConfig ctx o s).1).1,
              Effect.logEvent :: (refreshConfig ctx o s).2
                ++ (teardown ctx (refreshConfig ctx o s).1).2) from rfl] at h ⊢
      rcases teardown_cases ctx (refreshConfig ctx o s).1 with ht | ⟨m, hm⟩
      · rw [ht] at h
        rw [heq] at h
        simp at h
      · exact ⟨m, by simp [hm]⟩
  | refreshCfg o =>
    obtain ⟨pc, bc2, eff, heq, _⟩ := refreshConfig_shape ctx o s
    rw [show step ctx (Event.refreshCfg o) s = refreshConfig ctx o s from rfl, heq] at h
    simp at h
  | addCfg c => simp [step, addConfig] at h
  | apiShutdown =>
    rw [show step ctx Event.apiShutdown s
        = teardown ctx { s with shuttingDown := true } from rfl] at h ⊢
    rcases teardown_cases ctx { s with shuttingDown := true } with ht | ⟨m, hm⟩
    · rw [ht] at h
      simp at h
    · exact ⟨m, hm⟩
  | portGrant u p => simp [step] at h

/-- Witness for C9: stopping the started sample supervisor changes the
status (Pending to Down) and the step carries an IPC notification. -/
theorem c9_status_mutation_notifies_witness :
    ∃ m, Effect.ipcStatus m ∈ (step ctxSample Event.stopCB startedSample).2 := by
  exact (c9_status_mutation_notifies ctxSample Event.stopCB startedSample).1 (by decide)

/-- Events other than the explicit start entry points.  (`restartCB` is
excluded together with `startCB` because `restartChildBridge` on a
manually stopped bridge performs the `startChildBridge` call itself.) -/
def allowedC1 : Event → Bool
  | Event.startCB _ => false
  | Event.restartCB _ => false
  | _ => true

/-- The quiescent shape of a supervisor after exhausted restarts or a
manual stop: status Down, `manuallyStopped`, no pending restart timer, and
the (dead) child neither connected nor holding an armed close handler. -/
def Quiescent (s : ChildState) : Prop :=
  s.lastBridgeStatus = ChildBridgeStatus.down
  ∧ s.manuallyStopped = true
  ∧ s.pendingTimers = []
  ∧ (∀ c, s.child = some c → (c.closeAttached = false ∧ c.connected = false))

/-- Quiescence is preserved by every event except the explicit start entry
points, and no such event spawns or schedules a respawn. -/
theorem quiescent_step (ctx : Ctx) (e : Event) (s : ChildState)
    (ha : allowedC1 e = true) (h : Quiescent s) :
    Quiescent (step ctx e s).1 ∧ noRespawn (step ctx e s).2 = true := by
  obtain ⟨hst, hms, htm, hch⟩ := h
  cases e with
  | processClose code signal =>
    cases hc : s.child with
    | none => simpa [step, hc, noRespawn] using ⟨hst, hms, htm, hch⟩
    | some c =>
      have := (hch c hc).1
      simp only [step, hc, this, Bool.false_eq_true, if_false]
      exact ⟨⟨hst, hms, htm, hch⟩, rfl⟩
  | timerFire i =>
    have : ¬ i < s.pendingTimers.length := by simp [htm]
    simp only [step, this, if_false]
    exact ⟨⟨hst, hms, htm, hch⟩, rfl⟩
  | childMsg m =>
    cases hc : s.child with
    | none => simpa [step, hc, noRespawn] using ⟨hst, hms, htm, hch⟩
    | some c =>
      have := (hch c hc).2
      simp only [step, hc, this, Bool.false_eq_true, if_false]
      exact ⟨⟨hst, hms, htm, hch⟩, rfl⟩
  | childError =>
    cases hc : s.child with
    | none => simpa [step, hc, noRespawn] using ⟨hst, hms, htm, hch⟩
    | some c =>
      simp only [step, hc, setBridgeStatus]
      refine ⟨⟨rfl, hms, htm, ?_⟩, rfl⟩
      intro c2 hc2
      have hcc : some c = some c2 := hc2
      have : c = c2 := by injection hcc
      exact this ▸ hch c hc
  | stopCB =>
    by_cases hsd : s.shuttingDown = false
    · cases hc : s.child with
      | none =>
        refine ⟨⟨?_, ?_, ?_, ?_⟩, ?_⟩
        all_goals
          simp [step, stopChildBridge, hsd, hc, setBridgeStatus, teardown,
            htm, noRespawn, isRespawnEffect]
      | some c =>
        have hcon := (hch c hc).2
        refine ⟨⟨?_, ?_, ?_, ?_⟩, ?_⟩
        · simp [step, stopChildBridge, hsd, hc, setBridgeStatus, teardown, hcon]
        · simp [step, stopChildBridge, hsd, hc, setBridgeStatus, teardown, hcon]
        · simp [step, stopChildBridge, hsd, hc, setBridgeStatus, teardown, hcon, htm]
        · intro c2 hc2
          simp [step, stopChildBridge, hsd, hc, setBridgeStatus, teardown, hcon] at hc2
          subst hc2
          exact ⟨rfl, rfl⟩
        · simp [step, stopChildBridge, hsd, hc, setBridgeStatus, teardown, hcon,
            noRespawn, isRespawnEffect]
    · simp only [step, stopChildBridge, hsd]
      simp only [Bool.true_eq_false]
      exact ⟨⟨hst, hms, htm, hch⟩, rfl⟩
  | startCB o => simp [allowedC1] at ha
  | restartCB o => simp [allowedC1] at ha
  | refreshCfg o =>
    obtain ⟨pc, bc2, eff, heq, hor⟩ := refreshConfig_shape ctx o s
    rw [show step ctx (Event.refreshCfg o) s = refreshConfig ctx o s from rfl, heq]
    refine ⟨⟨hst, hms, htm, hch⟩, ?_⟩
    rcases hor with h9 | h9 <;> simp [h9, noRespawn, isRespawnEffect]
  | addCfg c =>
    exact ⟨⟨hst, hms, htm, hch⟩, rfl⟩
  | apiShutdown =>
    rw [show step ctx Event.apiShutdown s
        = teardown ctx { s with shuttingDown := true } from rfl]
    unfold teardown
    cases hc : s.child with
    | none =>
      refine ⟨⟨hst, hms, htm, ?_⟩, rfl⟩
      intro c2 hc2
      simp at hc2
    | some c =>
      have hcon := (hch c hc).2
      simp only [hc, hcon, Bool.false_eq_true, if_false]
      refine ⟨⟨hst, hms, htm, ?_⟩, rfl⟩
      intro c2 hc2
      have hcc : some c = some c2 := hc2
      have hce : c = c2 := by injection hcc
      exact hce ▸ hch c hc
  | portGrant u p =>
    cases hc : s.child with
    | none => simpa [step, sendMessage, hc, noRespawn] using ⟨hst, hms, htm, hch⟩
    | some c =>
      have hcon := (hch c hc).2
      simp only [step, sendMessage, hc, hcon, Bool.false_eq_true, if_false]
      exact ⟨⟨hst, hms, htm, hch⟩, rfl⟩

/-- Quiescence persists along any event sequence avoiding the explicit
start entry points, with no respawn spawned or scheduled anywhere. -/
theorem quiescent_run (ctx : Ctx) (es : List Event) (s : ChildState)
    (ha : es.all allowedC1 = true) (h : Quiescent s) :
    Quiescent (run ctx es s).1 ∧ noRespawn (run ctx es s).2 = true := by
  induction es generalizing s with
  | nil => exact ⟨h, rfl⟩
  | cons e es ih =>
    rw [List.all_cons, Bool.and_eq_true] at ha
    obtain ⟨hq, hnr⟩ := quiescent_step ctx e s ha.1 h
    obtain ⟨hq2, hnr2⟩ := ih (step ctx e s).1 ha.2 hq
    refine ⟨hq2, ?_⟩
    simp only [run, noRespawn, List.all_append]
    simp only [noRespawn] at hnr hnr2
    rw [hnr, hnr2]
    rfl

/-- A qualifying crash close: exit code 1, no signal. -/
def crashClose : Event := Event.processClose (some 1) none

/-- The canonical consecutive-crash sequence: five qualifying crash closes,
each respawn delivered by the backoff timer scheduled for it. -/
def crashLoopTrace : List Event :=
  [crashClose, Event.timerFire 0, crashClose, Event.timerFire 0, crashClose,
   Event.timerFire 0, crashClose, Event.timerFire 0, crashClose]


/-- Unfolding of `run` on a cons cell, state component only. -/
theorem run_cons_fst (ctx : Ctx) (e : Event) (es : List Event) (s : ChildState) :
    (run ctx (e :: es) s).1 = (run ctx es (step ctx e s).1).1 := rfl

/-- `run` on the empty trace is the identity on the state. -/
theorem run_nil_fst (ctx : Ctx) (s : ChildState) : (run ctx [] s).1 = s := rfl

/-- C1 (amended): from a fresh restart cycle (counter 0, not shutting down,
live worker with armed close handler) — and provided no stale backoff
timer from before the crash run is still pending (`pendingTimers = []`;
the source never cancels its `setTimeout` restart timers, so without this
proviso the claim is false, see `c1_respawn_after_fifth_crash` below) —
five consecutive qualifying crash closes exhaust the restart budget: after
the fifth crash the status is Down and `manuallyStopped` is true, and
along any further event sequence that contains no explicit
`startChildBridge` (nor `restartChildBridge`, which performs the
`startChildBridge` call itself when the bridge is manually stopped) no
respawn is spawned or scheduled and the supervisor stays Down and manually
stopped. -/
theorem c1_fifth_crash_pins_down (ctx : Ctx) (s : ChildState) (c : ChildHandle)
    (h0 : s.restartCount = 0) (h1 : s.pendingTimers = [])
    (h2 : s.shuttingDown = false) (h3 : s.child = some c) (h4 : c.closeAttached = true) :
    (run ctx crashLoopTrace s).1.lastBridgeStatus = ChildBridgeStatus.down
    ∧ (run ctx crashLoopTrace s).1.manuallyStopped = true
    ∧ ∀ es, es.all allowedC1 = true →
        noRespawn (run ctx es (run ctx crashLoopTrace s).1).2 = true
        ∧ (run ctx es (run ctx crashLoopTrace s).1).1.lastBridgeStatus
            = ChildBridgeStatus.down
        ∧ (run ctx es (run ctx crashLoopTrace s).1).1.manuallyStopped = true := by
  obtain ⟨ch, args2, pe, sd, st, ps, ms, su, pcfg, dn, rc, bc, pt, np⟩ := s
  obtain ⟨cpid, ccon, catt⟩ := c
  simp only at h0 h1 h2 h3 h4
  subst h0 h1 h2 h3 h4
  have t1 : (step ctx (Event.processClose (some 1) none)
      (⟨some ⟨cpid, ccon, true⟩, args2, pe, false, st, ps, ms, su, pcfg, dn, 0, bc, [], np⟩
        : ChildState)).1
      = (⟨some ⟨cpid, false, false⟩, args2, pe, false, ChildBridgeStatus.pending, ps, ms,
          su, pcfg, dn, 1, bc, [10], np⟩ : ChildState) := rfl
  have t2 : (step ctx (Event.timerFire 0)
      (⟨some ⟨cpid, false, false⟩, args2, pe, false, ChildBridgeStatus.pending, ps, ms,
        su, pcfg, dn, 1, bc, [10], np⟩ : ChildState)).1
      = (⟨some ⟨np, true, true⟩, args2, pe, false, ChildBridgeStatus.pending, ps, ms,
          su, pcfg, dn, 1, bc, [], np + 1⟩ : ChildState) := rfl
  have t3 : (step ctx (Event.processClose (some 1) none)
      (⟨some ⟨np, true, true⟩, args2, pe, false, ChildBridgeStatus.pending, ps, ms,
        su, pcfg, dn, 1, bc, [], np + 1⟩ : ChildState)).1
      = (⟨some ⟨np, false, false⟩, args2, pe, false, ChildBridgeStatus.pending, ps, ms,
          su, pcfg, dn, 2, bc, [20], np + 1⟩ : ChildState) := rfl
  have t4 : (step ctx (Event.timerFire 0)
      (⟨some ⟨np, false, false⟩, args2, pe, false, ChildBridgeStatus.pending, ps, ms,
        su, pcfg, dn, 2, bc, [20], np + 1⟩ : ChildState)).1
      = (⟨some ⟨np + 1, true, true⟩, args2, pe, false, ChildBridgeStatus.pending, ps, ms,
          su, pcfg, dn, 2, bc, [], np + 1 + 1⟩ : ChildState) := rfl
  have t5 : (step ctx (Event.processClose (some 1) none)
      (⟨some ⟨np + 1, true, true⟩, args2, pe, false, ChildBridgeStatus.pending, ps, ms,
        su, pcfg, dn, 2, bc, [], np + 1 + 1⟩ : ChildState)).1
      = (⟨some ⟨np + 1, false, false⟩, args2, pe, false, ChildBridgeStatus.pending, ps, ms,
          su, pcfg, dn, 3, bc, [30], np + 1 + 1⟩ : ChildState) := rfl
  have t6 : (step ctx (Event.timerFire 0)
      (⟨some ⟨np + 1, false, false⟩, args2, pe, false, ChildBridgeStatus.pending, ps, ms,
        su, pcfg, dn, 3, bc, [30], np + 1 + 1⟩ : ChildState)).1
      = (⟨some ⟨np + 1 + 1, true, true⟩, args2, pe, false, ChildBridgeStatus.pending, ps, ms,
          su, pcfg, dn, 3, bc, [], np + 1 + 1 + 1⟩ : ChildState) := rfl
  have t7 : (step ctx (Event.processClose (some 1) none)
      (⟨some ⟨np + 1 + 1, true, true⟩, args2, pe, false, ChildBridgeStatus.pending, ps, ms,
        su, pcfg, dn, 3, bc, [], np + 1 + 1 + 1⟩ : ChildState)).1
      = (⟨some ⟨np + 1 + 1, false, false⟩, args2, pe, false, ChildBridgeStatus.pending, ps,
          ms, su, pcfg, dn, 4, bc, [40], np + 1 + 1 + 1⟩ : ChildState) := rfl
  have t8 : (step ctx (Event.timerFire 0)
      (⟨some ⟨np + 1 + 1, false, false⟩, args2, pe, false, ChildBridgeStatus.pending, ps,
        ms, su, pcfg, dn, 4, bc, [40], np + 1 + 1 + 1⟩ : ChildState)).1
      = (⟨some ⟨np + 1 + 1 + 1, true, true⟩, args2, pe, false, ChildBridgeStatus.pending,
          ps, ms, su, pcfg, dn, 4, bc, [], np + 1 + 1 + 1 + 1⟩ : ChildState) := rfl
  have t9 : (step ctx (Event.processClose (some 1) none)
      (⟨some ⟨np + 1 + 1 + 1, true, true⟩, args2, pe, false, ChildBridgeStatus.pending,
        ps, ms, su, pcfg, dn, 4, bc, [], np + 1 + 1 + 1 + 1⟩ : ChildState)).1
      = (⟨some ⟨np + 1 + 1 + 1, false, false⟩, args2, pe, false, ChildBridgeStatus.down,
          ps, true, su, pcfg, dn, 4, bc, [], np + 1 + 1 + 1 + 1⟩ : ChildState) := rfl
  have hrun : (run ctx crashLoopTrace
      (⟨some ⟨cpid, ccon, true⟩, args2, pe, false, st, ps, ms, su, pcfg, dn, 0, bc, [], np⟩
        : ChildState)).1
      = (⟨some ⟨np + 1 + 1 + 1, false, false⟩, args2, pe, false, ChildBridgeStatus.down,
          ps, true, su, pcfg, dn, 4, bc, [], np + 1 + 1 + 1 + 1⟩ : ChildState) := by
    simp only [crashLoopTrace, crashClose]
    rw [run_cons_fst, t1, run_cons_fst, t2, run_cons_fst, t3, run_cons_fst, t4,
      run_cons_fst, t5, run_cons_fst, t6, run_cons_fst, t7, run_cons_fst, t8,
      run_cons_fst, t9, run_nil_fst]
  have hq : Quiescent (run ctx crashLoopTrace
      (⟨some ⟨cpid, ccon, true⟩, args2, pe, false, st, ps, ms, su, pcfg, dn, 0, bc, [], np⟩
        : ChildState)).1 := by
    rw [hrun]
    refine ⟨rfl, rfl, rfl, ?_⟩
    intro c2 hc2
    have hcc : some ({ pid := np + 1 + 1 + 1, connected := false, closeAttached := false }
        : ChildHandle) = some c2 := hc2
    have hce : ({ pid := np + 1 + 1 + 1, connected := false, closeAttached := false }
        : ChildHandle) = c2 := by injection hcc
    rw [← hce]
    exact ⟨rfl, rfl⟩
  refine ⟨by rw [hrun], by rw [hrun], ?_⟩
  intro es ha
  obtain ⟨hq2, hnr⟩ := quiescent_run ctx es _ ha hq
  exact ⟨hnr, hq2.1, hq2.2.1⟩

/-- Witness for C1: the five-crash trace on the started sample supervisor
ends Down and manually stopped, and a subsequent stop event causes no
respawn. -/
theorem c1_fifth_crash_pins_down_witness :
    (run ctxSample crashLoopTrace startedSample).1.lastBridgeStatus = ChildBridgeStatus.down
    ∧ (run ctxSample crashLoopTrace startedSample).1.manuallyStopped = true
    ∧ noRespawn (run ctxSample [Event.stopCB]
        (run ctxSample crashLoopTrace startedSample).1).2 = true := by
  have h := c1_fifth_crash_pins_down ctxSample startedSample
    { pid := 0, connected := true, closeAttached := true } rfl rfl rfl rfl rfl
  exact ⟨h.1, h.2.1, (h.2.2 [Event.stopCB] rfl).1⟩

/-- The stale-timer scenario: a crash schedules a 10-second backoff timer;
the user stops and then manually restarts the bridge (which never cancels
the pending timer); the restarted worker then crashes five consecutive
times, with one extra live timer in flight throughout, so that when the
restart budget is exhausted (`manuallyStopped` set, Down announced as
final) one scheduled restart timer is still pending. -/
def staleTimerTrace : List Event :=
  [crashClose, Event.stopCB, Event.startCB (Except.error ()),
   crashClose, Event.timerFire 0, crashClose, Event.timerFire 0,
   crashClose, Event.timerFire 0, crashClose, Event.timerFire 0, crashClose]

/-- C5 (violated by the code): after `staleTimerTrace` the supervisor is in
a reachable state with `manuallyStopped = true`, status Down and
`shuttingDown = false`, yet a scheduled restart timer (40 s, from the
fourth crash of the second run) is still pending; when it fires, the
`setTimeout` callback sees `shuttingDown === false` and calls
`startChildProcess()` — an automatic respawn with no `startChildBridge`
call, contradicting the claim (and the source's own log line promising the
bridge "will no longer restart"). -/
theorem c5_stale_timer_respawns_after_manual_stop :
    (run ctxSample staleTimerTrace startedSample).1.manuallyStopped = true
    ∧ (run ctxSample staleTimerTrace startedSample).1.lastBridgeStatus
        = ChildBridgeStatus.down
    ∧ (run ctxSample staleTimerTrace startedSample).1.shuttingDown = false
    ∧ (run ctxSample staleTimerTrace startedSample).1.pendingTimers = [40]
    ∧ hasSpawn (step ctxSample (Event.timerFire 0)
        (run ctxSample staleTimerTrace startedSample).1).2 = true := by
  exact ⟨rfl, rfl, rfl, rfl, rfl⟩

/-- Counterexample for C1 as originally stated: `staleTimerTrace` ends with
five consecutive qualifying crash closes (counter 1, 2, 3, 4, then one
more), so after its fifth crash the supervisor is Down with
`manuallyStopped = true` and `restartCount = 4` — yet a backoff timer
scheduled during the run is still pending, and its fire (not a
`startChildBridge` or `restartChildBridge` call) performs a further
respawn.  "No further respawn is scheduled or performed without an
explicit `startChildBridge` call" is therefore false on the code; it holds
only under the no-stale-timer proviso of `c1_fifth_crash_pins_down`. -/
theorem c1_respawn_after_fifth_crash :
    (run ctxSample staleTimerTrace startedSample).1.restartCount = 4
    ∧ (run ctxSample staleTimerTrace startedSample).1.manuallyStopped = true
    ∧ (run ctxSample staleTimerTrace startedSample).1.lastBridgeStatus
        = ChildBridgeStatus.down
    ∧ allowedC1 (Event.timerFire 0) = true
    ∧ hasSpawn (step ctxSample (Event.timerFire 0)
        (run ctxSample staleTimerTrace startedSample).1).2 = true := by
  exact ⟨rfl, rfl, rfl, rfl, rfl⟩
